import Mathlib

/-!
Shallow embedding of the certificate-protection system (Node/Express backend)
and proofs about its RBAC engine, account lockout guard, token service,
certificate integrity engine and audit recorder.

Conventions of the embedding:
* machine timestamps are `Nat` milliseconds, the current time is passed as `now`;
* cryptographic primitives (SHA-256, HMAC-SHA256, bcrypt, `crypto.randomBytes`)
  are external collaborators and appear as explicit function/value parameters;
* a thrown JS exception that a caller can observe is an `Except` error; a
  `try/catch` that swallows it is a `match` discarding the error;
* the document store is not modelled: a controller receives the result of its
  query (`Option` of the record) and returns the updated record together with
  the HTTP outcome, so read-modify-write becomes explicit state passing.
-/

namespace CertSys

/-! ## RBAC configuration (src/config/rbac.js) -/

/-- `Object.values(ROLES)` from the rbac config. -/
def roleValues : List String :=
  ["super_admin", "admin", "issuer", "verifier", "holder"]

/-- `Object.values(PERMISSIONS)` in declaration order. -/
def allPermissions : List String :=
  [ "certificate:create", "certificate:read", "certificate:read:own",
    "certificate:update", "certificate:delete", "certificate:revoke",
    "certificate:verify", "certificate:export", "certificate:sign",
    "user:create", "user:read", "user:read:own", "user:update",
    "user:update:own", "user:delete", "user:assign_role",
    "role:create", "role:read", "role:update", "role:delete",
    "audit:read", "audit:export",
    "system:config", "system:backup" ]

/-- `ROLE_PERMISSIONS[ROLES.ADMIN]`. -/
def adminPermissions : List String :=
  [ "certificate:create", "certificate:read", "certificate:update",
    "certificate:delete", "certificate:revoke", "certificate:verify",
    "certificate:export", "certificate:sign",
    "user:create", "user:read", "user:update", "user:delete",
    "user:assign_role", "role:read", "audit:read", "audit:export" ]

/-- `ROLE_PERMISSIONS[ROLES.ISSUER]`. -/
def issuerPermissions : List String :=
  [ "certificate:create", "certificate:read", "certificate:update",
    "certificate:revoke", "certificate:verify", "certificate:export",
    "certificate:sign", "user:read", "audit:read" ]

/-- `ROLE_PERMISSIONS[ROLES.VERIFIER]`. -/
def verifierPermissions : List String :=
  [ "certificate:read", "certificate:verify", "user:read:own",
    "user:update:own" ]

/-- `ROLE_PERMISSIONS[ROLES.HOLDER]`. -/
def holderPermissions : List String :=
  [ "certificate:read:own", "certificate:verify", "user:read:own",
    "user:update:own" ]

/-- The `ROLE_PERMISSIONS` map; lookup of an unknown key yields the
`|| []` default used by `hasPermission`/`getPermissions`.
`super_admin` maps to `Object.values(PERMISSIONS)`, i.e. every permission. -/
def ROLE_PERMISSIONS (role : String) : List String :=
  if role = "super_admin" then allPermissions
  else if role = "admin" then adminPermissions
  else if role = "issuer" then issuerPermissions
  else if role = "verifier" then verifierPermissions
  else if role = "holder" then holderPermissions
  else []

/-- `hasPermission(role, permission)` — membership in the role's entry. -/
def hasPermission (role permission : String) : Bool :=
  (ROLE_PERMISSIONS role).contains permission

/-- `hasAnyPermission(role, permissionList)`. -/
def hasAnyPermission (role : String) (permissionList : List String) : Bool :=
  permissionList.any (fun p => hasPermission role p)

/-- `getPermissions(role)`. -/
def getPermissions (role : String) : List String :=
  ROLE_PERMISSIONS role

end CertSys

namespace CertSys

theorem hasPermission_imp_known (r p : String)
    (h : hasPermission r p = true) : p ∈ allPermissions := by
  have hmem : p ∈ ROLE_PERMISSIONS r := by simpa [hasPermission] using h
  have hsub : (ROLE_PERMISSIONS r).all (fun x => allPermissions.contains x) = true := by
    unfold ROLE_PERMISSIONS
    split_ifs <;> decide
  simpa using List.all_eq_true.mp hsub p hmem

/-! ## User model and account lockout guard (src/models/User.js) -/

/-- The persisted user fields the lockout guard and controllers touch.
`passwordHash` stands for the bcrypt hash; comparison outcomes are passed
in as booleans where the controllers call `comparePassword`. -/
structure UserRec where
  id : String
  email : String
  role : String
  isActive : Bool
  loginAttempts : Nat
  lockUntil : Option Nat
  lastLogin : Option Nat
  deriving Repr, DecidableEq

/-- `MAX_ATTEMPTS` in `incLoginAttempts`. -/
def MAX_ATTEMPTS : Nat := 5

/-- `LOCK_TIME` in `incLoginAttempts`: 2 hours in milliseconds. -/
def LOCK_TIME : Nat := 2 * 60 * 60 * 1000

/-- Virtual `isLocked`: `lockUntil && lockUntil > Date.now()`. -/
def isLocked (now : Nat) (u : UserRec) : Bool :=
  match u.lockUntil with
  | some l => now < l
  | none => false

/-- `incLoginAttempts()`: if a previous lock has expired, restart the
counter at 1 and clear the lock; otherwise increment, and set the lock when
the incremented counter reaches `MAX_ATTEMPTS` and no lock is active. -/
def incLoginAttempts (now : Nat) (u : UserRec) : UserRec :=
  if (match u.lockUntil with | some l => decide (l < now) | none => false) then
    { u with lockUntil := none, loginAttempts := 1 }
  else
    let u' := { u with loginAttempts := u.loginAttempts + 1 }
    if u.loginAttempts + 1 ≥ MAX_ATTEMPTS ∧ ¬ isLocked now u then
      { u' with lockUntil := some (now + LOCK_TIME) }
    else u'

/-- `resetLoginAttempts()`: unset the lock, zero the counter, stamp
`lastLogin`. -/
def resetLoginAttempts (now : Nat) (u : UserRec) : UserRec :=
  { u with lockUntil := none, loginAttempts := 0, lastLogin := some now }

/-! ## Login controller (src/controllers/authController.js, `login`) -/

/-- The externally visible outcome of `login`, by error `code`. -/
inductive LoginOutcome where
  | invalidCredentials    -- 401 INVALID_CREDENTIALS
  | accountLocked         -- 423 ACCOUNT_LOCKED
  | accountInactive       -- 401 ACCOUNT_INACTIVE
  | success               -- 200
  deriving Repr, DecidableEq

/-- `login`: the user record found by email (or none), and the outcome of
the bcrypt comparison had it been run (`passwordOk`), mapped to the
response plus the stored user state after the request. The guard order is
exactly the source's: lock check, active check, password check. -/
def login (now : Nat) (userFound : Option UserRec) (passwordOk : Bool) :
    LoginOutcome × Option UserRec :=
  match userFound with
  | none => (.invalidCredentials, none)
  | some u =>
    if isLocked now u then (.accountLocked, some u)
    else if ¬ u.isActive then (.accountInactive, some u)
    else if ¬ passwordOk then (.invalidCredentials, some (incLoginAttempts now u))
    else (.success, some (resetLoginAttempts now u))

/-! ## User controller (src/controllers/userController.js) -/

/-- Outcome of `assignRole`; `ok` carries the updated target user. -/
inductive AssignRoleOutcome where
  | invalidRole             -- 400 INVALID_ROLE
  | insufficientPrivilege   -- 403 INSUFFICIENT_PRIVILEGE
  | notFound                -- 404
  | ok (updated : UserRec)  -- 200
  deriving Repr, DecidableEq

/-- `assignRole`: validate the role string, enforce that only a
`super_admin` caller may assign `admin`/`super_admin`, then look up and
update the target. -/
def assignRole (caller : UserRec) (role : String) (target : Option UserRec) :
    AssignRoleOutcome :=
  if ¬ roleValues.contains role then .invalidRole
  else if (role = "admin" ∨ role = "super_admin") ∧ caller.role ≠ "super_admin" then
    .insufficientPrivilege
  else
    match target with
    | none => .notFound
    | some u => .ok { u with role := role }

/-- Outcome of `createUser`; `ok` carries the created user's role. -/
inductive CreateUserOutcome where
  | insufficientPrivilege   -- 403 INSUFFICIENT_PRIVILEGE
  | emailTaken              -- 409 EMAIL_TAKEN
  | ok (role : String)      -- 201
  deriving Repr, DecidableEq

/-- `createUser`: only a `super_admin` caller may create a user whose
requested role is `admin`/`super_admin`; on success the stored role is the
requested one, defaulting to `holder` when absent. -/
def createUser (caller : UserRec) (role : Option String) (emailTaken : Bool) :
    CreateUserOutcome :=
  if (role = some "admin" ∨ role = some "super_admin") ∧
      caller.role ≠ "super_admin" then
    .insufficientPrivilege
  else if emailTaken then .emailTaken
  else .ok (role.getD "holder")

/-! ## Token service (src/utils/jwt.js)

A signed JWT is modelled symbolically: the record carries the claims
`jwt.sign` embeds plus the secret it was signed with; `jwt.verify`
succeeds exactly when the secret matches, the token is unexpired, the
issuer matches, and — only when the verifier requests one — the audience
matches. -/

/-- Default `JWT_SECRET`. -/
def JWT_SECRET : String := "cert-rbac-super-secret-change-in-production-2024"

/-- Default `JWT_REFRESH_SECRET`. -/
def JWT_REFRESH_SECRET : String := "cert-rbac-refresh-secret-change-2024"

/-- Access-token lifetime `15m` in milliseconds. -/
def JWT_EXPIRES_MS : Nat := 15 * 60 * 1000

/-- Refresh-token lifetime `7d` in milliseconds. -/
def JWT_REFRESH_EXPIRES_MS : Nat := 7 * 24 * 60 * 60 * 1000

/-- The payload claims `jwt.sign` receives. `role` is present only on
access tokens, `tokenId` only on refresh tokens. -/
structure JwtPayload where
  userId : String
  email : String
  role : Option String
  tokenId : Option String
  type : String
  deriving Repr, DecidableEq

/-- A token as produced by `jwt.sign`: payload plus registered claims and
the signing secret (standing for the signature). -/
structure SignedToken where
  payload : JwtPayload
  iss : String
  aud : Option String
  exp : Nat
  secret : String
  deriving Repr, DecidableEq

/-- Failure modes of `jwt.verify` (thrown errors). -/
inductive JwtError where
  | signatureInvalid
  | expired          -- TokenExpiredError
  | issuerInvalid
  | audienceInvalid
  deriving Repr, DecidableEq

/-- `jwt.verify(token, secret, options)`: signature, expiry, issuer, and
audience when (and only when) the options request one. -/
def jwtVerify (secret iss : String) (audOpt : Option String)
    (now : Nat) (t : SignedToken) : Except JwtError JwtPayload :=
  if t.secret ≠ secret then .error .signatureInvalid
  else if t.exp ≤ now then .error .expired
  else if t.iss ≠ iss then .error .issuerInvalid
  else
    match audOpt with
    | some a => if t.aud = some a then .ok t.payload else .error .audienceInvalid
    | none => .ok t.payload

/-- `generateAccessToken(payload)`. -/
def generateAccessToken (now : Nat) (userId email role : String) : SignedToken :=
  { payload := { userId, email, role := some role, tokenId := none, type := "access" }
    iss := "certificate-rbac-system"
    aud := some "certificate-rbac-users"
    exp := now + JWT_EXPIRES_MS
    secret := JWT_SECRET }

/-- `generateRefreshToken(payload)`; `tokenId` is the random hex passed in. -/
def generateRefreshToken (now : Nat) (userId email tokenId : String) : SignedToken :=
  { payload := { userId, email, role := none, tokenId := some tokenId, type := "refresh" }
    iss := "certificate-rbac-system"
    aud := none
    exp := now + JWT_REFRESH_EXPIRES_MS
    secret := JWT_REFRESH_SECRET }

/-- `verifyAccessToken(token)`: verify against `JWT_SECRET` with issuer and
audience options. -/
def verifyAccessToken (now : Nat) (t : SignedToken) : Except JwtError JwtPayload :=
  jwtVerify JWT_SECRET "certificate-rbac-system"
    (some "certificate-rbac-users") now t

/-- `verifyRefreshToken(token)`: verify against `JWT_REFRESH_SECRET` with
an issuer option only (no audience option). -/
def verifyRefreshToken (now : Nat) (t : SignedToken) : Except JwtError JwtPayload :=
  jwtVerify JWT_REFRESH_SECRET "certificate-rbac-system" none now t

/-! ## Authentication middleware (src/middleware/auth.js, `authenticate`)
and refresh endpoint (src/controllers/authController.js, `refreshToken`) -/

/-- The externally visible outcome of `authenticate`, by error `code`. -/
inductive AuthOutcome where
  | authRequired       -- 401 AUTH_REQUIRED
  | tokenExpired       -- 401 TOKEN_EXPIRED
  | tokenInvalid       -- 401 TOKEN_INVALID
  | tokenTypeInvalid   -- 401 TOKEN_TYPE_INVALID
  | userNotFound       -- 401 USER_NOT_FOUND
  | accountInactive    -- 401 ACCOUNT_INACTIVE
  | ok (user : UserRec)
  deriving Repr, DecidableEq

/-- `authenticate`: extract the bearer token (`none` when the header is
missing or not `Bearer`), run `verifyAccessToken`, check the `type`
discriminator, load the user and check activity. -/
def authenticate (now : Nat) (bearerToken : Option SignedToken)
    (findUser : String → Option UserRec) : AuthOutcome :=
  match bearerToken with
  | none => .authRequired
  | some t =>
    match verifyAccessToken now t with
    | .error .expired => .tokenExpired
    | .error _ => .tokenInvalid
    | .ok decoded =>
      if decoded.type ≠ "access" then .tokenTypeInvalid
      else
        match findUser decoded.userId with
        | none => .userNotFound
        | some u =>
          if ¬ u.isActive then .accountInactive
          else .ok u

/-- The externally visible outcome of the `refreshToken` endpoint. -/
inductive RefreshOutcome where
  | refreshTokenRequired   -- 401 REFRESH_TOKEN_REQUIRED
  | refreshTokenInvalid    -- 401 REFRESH_TOKEN_INVALID
  | userInactive           -- 401 USER_INACTIVE
  | ok (userId : String)   -- 200, new token pair for this user
  deriving Repr, DecidableEq

/-- `refreshToken` endpoint: verify the presented token with
`verifyRefreshToken` (any thrown error becomes `REFRESH_TOKEN_INVALID`),
then look up the subject user and require it active. No check of the
`type` claim appears in this path. -/
def refreshTokenOp (now : Nat) (bodyToken : Option SignedToken)
    (findUser : String → Option UserRec) : RefreshOutcome :=
  match bodyToken with
  | none => .refreshTokenRequired
  | some t =>
    match verifyRefreshToken now t with
    | .error _ => .refreshTokenInvalid
    | .ok decoded =>
      match findUser decoded.userId with
      | none => .userInactive
      | some u =>
        if ¬ u.isActive then .userInactive
        else .ok u.id

/-! ## Certificate model (src/models/Certificate.js) -/

/-- Schema enum of `status`. -/
def certStatusEnum : List String :=
  ["draft", "pending", "active", "expired", "revoked", "suspended"]

/-- Schema enum of `verificationHistory[].result`. -/
def historyResultEnum : List String :=
  ["valid", "invalid", "expired", "revoked"]

/-- One `verificationHistory` entry. -/
structure VerificationEntry where
  verifiedBy : Option String
  verifiedAt : Nat
  ipAddress : String
  userAgent : String
  result : String
  deriving Repr, DecidableEq

/-- The certificate fields the integrity engine and controllers touch.
Identifier fields generated by the pre-save hook are `Option` so an
unsaved certificate (`undefined` in JS) is distinguishable from a saved
one. -/
structure Certificate where
  certificateId : Option String
  serialNumber : Option String
  verificationToken : Option String
  verificationUrl : Option String
  checksum : Option String
  title : String
  type : String
  status : String
  holder : String
  holderName : String
  issuingOrganization : String
  issuedAt : Nat
  expiresAt : Option Nat
  revokedAt : Option Nat
  revokedBy : Option String
  revocationReason : Option String
  digitalSignature : Option String
  verificationHistory : List VerificationEntry
  deriving Repr, DecidableEq

/-- The canonical subset of fields serialized into `dataToHash` by the
pre-save hook (`JSON.stringify({title, holder, holderName,
issuingOrganization, issuedAt, type})`). -/
structure ChecksumInput where
  title : String
  holder : String
  holderName : String
  issuingOrganization : String
  issuedAt : Nat
  type : String
  deriving Repr, DecidableEq

/-- Project a certificate onto its checksum inputs. -/
def checksumInput (c : Certificate) : ChecksumInput :=
  { title := c.title, holder := c.holder, holderName := c.holderName
    issuingOrganization := c.issuingOrganization, issuedAt := c.issuedAt
    type := c.type }

/-- Virtual `isExpired`: `expiresAt && expiresAt < new Date()`. -/
def isExpired (now : Nat) (c : Certificate) : Bool :=
  match c.expiresAt with
  | some e => e < now
  | none => false

/-- Virtual `isValid`: active and not past `expiresAt`. -/
def isValid (now : Nat) (c : Certificate) : Bool :=
  if c.status ≠ "active" then false
  else if isExpired now c then false
  else true

/-- The certificate pre-save hook. `sha256` stands for
`crypto.createHash('sha256')...digest('hex')` over the canonical JSON;
`randId`/`randSerial`/`randToken` are the `crypto.randomBytes` hex draws
of this save. The three identifiers are generated only when absent; the
`verificationUrl` and the `checksum` are (re)computed on every save. -/
def preSave (sha256 : ChecksumInput → String) (year : Nat)
    (randId randSerial randToken baseUrl : String) (c : Certificate) :
    Certificate :=
  let c1 := if c.certificateId.isNone then
      { c with certificateId := some ("CERT-" ++ toString year ++ "-" ++ randId) }
    else c
  let c2 := if c1.serialNumber.isNone then
      { c1 with serialNumber := some randSerial } else c1
  let c3 := if c2.verificationToken.isNone then
      { c2 with verificationToken := some randToken } else c2
  let url := baseUrl ++ "/verify/" ++ c3.verificationToken.getD randToken
  let c4 := { c3 with verificationUrl := some url }
  { c4 with checksum := some (sha256 (checksumInput c4)) }

/-- The HMAC payload `certificateId|serialNumber|checksum`. -/
def signPayload (c : Certificate) : String :=
  c.certificateId.getD "" ++ "|" ++ c.serialNumber.getD "" ++ "|" ++
    c.checksum.getD ""

/-- `signCertificate(secretKey)`: HMAC-SHA256 of the sign payload; `hmac`
stands for `crypto.createHmac('sha256', key).update(m).digest('hex')`. -/
def signCertificate (hmac : String → String → String) (secretKey : String)
    (c : Certificate) : String :=
  hmac secretKey (signPayload c)

/-- `verifySignature(secretKey)`: recompute the expected HMAC from current
field values and compare (constant-time equality modelled as equality). -/
def verifySignature (hmac : String → String → String) (secretKey : String)
    (c : Certificate) : Bool :=
  match c.digitalSignature with
  | none => false
  | some sig => sig = hmac secretKey (signPayload c)

/-- Mongoose validation run by `save()`: `status` and every
`verificationHistory[].result` must lie in their schema enums. -/
def certValidate (c : Certificate) : Bool :=
  certStatusEnum.contains c.status &&
    c.verificationHistory.all (fun e => historyResultEnum.contains e.result)

/-- `save()` seen by a controller: schema validation, then persist;
a validation failure is a thrown `ValidationError`. -/
def saveCertificate (c : Certificate) : Except String Certificate :=
  if certValidate c then .ok c else .error "ValidationError"

/-! ## Audit recorder (src/models/AuditLog.js, `auditSchema.statics.log`) -/

/-- The audit-entry fields the claims are about. -/
structure AuditEvent where
  action : String
  severity : String
  success : Bool
  deriving Repr, DecidableEq

/-- `AuditLog.log(data)`: build the entry and attempt the store write; a
failure of the write (`entry.save()` throwing) is caught inside the
recorder, logged to the console, and `undefined` is returned — the error
is never rethrown. `storeWrite` stands for the persistence call. -/
def auditLog (storeWrite : AuditEvent → Except String AuditEvent)
    (data : AuditEvent) : Option AuditEvent :=
  match storeWrite data with
  | .ok e => some e
  | .error _ => none

/-! ## Certificate controllers (src/controllers/certificateController.js) -/

/-- The input fields `createCertificate` places on the new document. -/
structure CreateCertInput where
  title : String
  type : String
  holder : String
  holderName : String
  issuingOrganization : String
  issuedAt : Nat
  expiresAt : Option Nat
  deriving Repr, DecidableEq

/-- The document handed to `new Certificate({...})` in `createCertificate`:
explicitly `status: 'pending'`, no identifiers, no signature yet. -/
def newCertificate (inp : CreateCertInput) : Certificate :=
  { certificateId := none, serialNumber := none, verificationToken := none
    verificationUrl := none, checksum := none
    title := inp.title, type := inp.type, status := "pending"
    holder := inp.holder, holderName := inp.holderName
    issuingOrganization := inp.issuingOrganization, issuedAt := inp.issuedAt
    expiresAt := inp.expiresAt, revokedAt := none, revokedBy := none
    revocationReason := none, digitalSignature := none
    verificationHistory := [] }

/-- `createCertificate` after holder resolution: build the pending
document, save it (running the pre-save hook), and — exactly when the
caller's role holds `certificate:sign` — compute the digital signature,
advance the status to `active` and save again. -/
def createCertificate (sha256 : ChecksumInput → String)
    (hmac : String → String → String) (signingSecret : String)
    (callerRole : String) (year : Nat)
    (randId randSerial randToken baseUrl : String)
    (inp : CreateCertInput) : Certificate :=
  let cert := preSave sha256 year randId randSerial randToken baseUrl
    (newCertificate inp)
  if hasPermission callerRole "certificate:sign" then
    let signed := { cert with
      digitalSignature := some (signCertificate hmac signingSecret cert)
      status := "active" }
    preSave sha256 year randId randSerial randToken baseUrl signed
  else cert

/-- Outcome of `revokeCertificate`; `ok` carries the updated document. -/
inductive RevokeOutcome where
  | notFound              -- 404 CERT_NOT_FOUND
  | alreadyRevoked        -- 400 ALREADY_REVOKED
  | ok (updated : Certificate)
  deriving Repr, DecidableEq

/-- `revokeCertificate` (found document passed in): the idempotency guard
rejects an already-revoked certificate before any mutation; otherwise set
status/revokedAt/revokedBy and the reason (defaulted when absent) and
save. The subsequent `save()` pre-save hook only recomputes
`verificationUrl`/`checksum` here since the identifiers are present. -/
def revokeCertificate (now : Nat) (callerId : String) (reason : Option String)
    (found : Option Certificate) : RevokeOutcome :=
  match found with
  | none => .notFound
  | some c =>
    if c.status = "revoked" then .alreadyRevoked
    else .ok { c with
      status := "revoked"
      revokedAt := some now
      revokedBy := some callerId
      revocationReason := some (reason.getD "No reason provided") }

/-- `revokeCertificate` together with its audit write, to state that the
audit store's behavior cannot change the primary outcome. -/
def revokeCertificateOp (now : Nat) (callerId : String)
    (reason : Option String) (found : Option Certificate)
    (storeWrite : AuditEvent → Except String AuditEvent) : RevokeOutcome :=
  match revokeCertificate now callerId reason found with
  | .ok c' =>
    let _ := auditLog storeWrite
      { action := "certificate.revoke", severity := "critical", success := true }
    .ok c'
  | other => other

/-- The response of the public verification endpoint:
HTTP status, `success` flag, `result` string. -/
structure VerifyResponse where
  httpStatus : Nat
  success : Bool
  result : String
  deriving Repr, DecidableEq

/-- The result-evaluation block of `verifyCertificate` (the chain of
status checks over the found certificate), in source order: `revoked`,
`suspended`, `isExpired`, any other non-`active` status, then signature
verification when a signature is present. -/
def computeVerificationResult (now : Nat) (hmac : String → String → String)
    (secret : String) (c : Certificate) : String :=
  if c.status = "revoked" then "revoked"
  else if c.status = "suspended" then "suspended"
  else if isExpired now c then "expired"
  else if c.status ≠ "active" then "invalid"
  else if c.digitalSignature.isSome then
    if verifySignature hmac secret c then "valid" else "invalid"
  else "valid"

/-- The public `verifyCertificate` endpoint on the already-looked-up
document: not found → 404/`invalid`; otherwise evaluate the result,
append the attempt to `verificationHistory`, and save. A save failure is
caught by the controller's `catch`, which responds 500 with result
`error`. Returns the response and the stored document state. -/
def verifyCertificate (now : Nat) (hmac : String → String → String)
    (secret : String) (found : Option Certificate)
    (requesterId : Option String) (ip ua : String) :
    VerifyResponse × Option Certificate :=
  match found with
  | none => (⟨404, false, "invalid"⟩, none)
  | some c =>
    let r := computeVerificationResult now hmac secret c
    let c' := { c with verificationHistory := c.verificationHistory ++
        [{ verifiedBy := requesterId, verifiedAt := now, ipAddress := ip
           userAgent := ua, result := r }] }
    match saveCertificate c' with
    | .error _ => (⟨500, false, "error"⟩, some c)
    | .ok saved => (⟨200, true, r⟩, some saved)

/-! ## Claim theorems -/

/-- C6: `hasPermission(role, permission)` is a pure function of the static
role-permission map: it is true exactly when the role's map entry contains
the permission (the map realizes the all-sentinel for `super_admin` by
listing every permission constant); `super_admin` holds every permission
constant; an unknown role yields `false`; an unknown permission string
yields `false`. The function is total, so it never throws. -/
theorem hasPermission_pure_map_spec (r p : String) :
    (hasPermission r p = true ↔ p ∈ ROLE_PERMISSIONS r) ∧
    (∀ q ∈ allPermissions, hasPermission "super_admin" q = true) ∧
    (r ∉ roleValues → hasPermission r p = false) ∧
    (p ∉ allPermissions → hasPermission r p = false) := by
  refine ⟨by simp [hasPermission], ?_, ?_, ?_⟩
  · intro q hq
    simpa [hasPermission, ROLE_PERMISSIONS] using hq
  · intro hr
    have h1 : r ≠ "super_admin" := by
      intro h
      exact hr (by simp [roleValues, h])
    have h2 : r ≠ "admin" := by
      intro h
      exact hr (by simp [roleValues, h])
    have h3 : r ≠ "issuer" := by
      intro h
      exact hr (by simp [roleValues, h])
    have h4 : r ≠ "verifier" := by
      intro h
      exact hr (by simp [roleValues, h])
    have h5 : r ≠ "holder" := by
      intro h
      exact hr (by simp [roleValues, h])
    simp [hasPermission, ROLE_PERMISSIONS, h1, h2, h3, h4, h5]
  · intro hp
    by_contra hcon
    have : hasPermission r p = true := by
      cases h : hasPermission r p
      · exact absurd h hcon
      · rfl
    exact hp (hasPermission_imp_known r p this)

/-- Witness for C6 at concrete inputs: an unknown role is denied,
`super_admin` holds a sample permission. -/
theorem hasPermission_pure_map_spec_witness :
    hasPermission "ghost" "certificate:read" = false ∧
    hasPermission "super_admin" "system:backup" = true :=
  ⟨(hasPermission_pure_map_spec "ghost" "certificate:read").2.2.1 (by decide),
   (hasPermission_pure_map_spec "super_admin" "system:backup").2.1
     "system:backup" (by decide)⟩

/-- C3: assigning (or creating a user with) role `admin` or `super_admin`
fails with `INSUFFICIENT_PRIVILEGE` — no update of the target occurs —
whenever the caller's role is not exactly `super_admin`; a `super_admin`
caller performing the same assignment succeeds (creation succeeding when
the email is free). -/
theorem admin_role_assignment_requires_super_admin (caller target : UserRec)
    (role : String) (emailTaken : Bool)
    (hrole : role = "admin" ∨ role = "super_admin") :
    (caller.role ≠ "super_admin" →
      assignRole caller role (some target) = .insufficientPrivilege ∧
      createUser caller (some role) emailTaken = .insufficientPrivilege) ∧
    (caller.role = "super_admin" →
      assignRole caller role (some target) = .ok { target with role := role } ∧
      (emailTaken = false → createUser caller (some role) emailTaken = .ok role)) := by
  constructor
  · intro hc
    rcases hrole with rfl | rfl <;>
      simp [assignRole, createUser, roleValues, hc]
  · intro hc
    rcases hrole with rfl | rfl <;>
      exact ⟨by simp [assignRole, roleValues, hc],
             fun h => by simp [createUser, hc, h]⟩

/-- Witness for C3: an `admin` caller cannot promote to `admin`; a
`super_admin` caller can. -/
theorem admin_role_assignment_requires_super_admin_witness :
    assignRole ⟨"a1", "a@x.com", "admin", true, 0, none, none⟩ "admin"
        (some ⟨"t1", "t@x.com", "holder", true, 0, none, none⟩) =
      .insufficientPrivilege ∧
    assignRole ⟨"s1", "s@x.com", "super_admin", true, 0, none, none⟩ "admin"
        (some ⟨"t1", "t@x.com", "holder", true, 0, none, none⟩) =
      .ok ⟨"t1", "t@x.com", "admin", true, 0, none, none⟩ :=
  ⟨((admin_role_assignment_requires_super_admin
      ⟨"a1", "a@x.com", "admin", true, 0, none, none⟩
      ⟨"t1", "t@x.com", "holder", true, 0, none, none⟩
      "admin" false (Or.inl rfl)).1 (by decide)).1,
   ((admin_role_assignment_requires_super_admin
      ⟨"s1", "s@x.com", "super_admin", true, 0, none, none⟩
      ⟨"t1", "t@x.com", "holder", true, 0, none, none⟩
      "admin" false (Or.inl rfl)).2 rfl).1⟩

/-- C4: the account lockout guard. (i) With no lock present, a failed
password check increments the counter; (ii) when the incremented counter
reaches 5 the lock is set to now + 2 hours; (iii) while the lock is in
the future the login is rejected `ACCOUNT_LOCKED` with the same outcome
for every password, i.e. before any password comparison; (iv) the first
failed attempt after the lock has passed resets the counter to 1 and
clears the lock; (v) a successful login resets the counter to 0, clears
the lock and stamps `lastLogin`. -/
theorem account_lockout_guard_spec (now : Nat) (u : UserRec) (pw : Bool) :
    (u.lockUntil = none → u.isActive = true →
      login now (some u) false =
        (.invalidCredentials, some (incLoginAttempts now u)) ∧
      (incLoginAttempts now u).loginAttempts = u.loginAttempts + 1) ∧
    (u.lockUntil = none → u.loginAttempts + 1 ≥ 5 →
      (incLoginAttempts now u).lockUntil = some (now + 2 * 60 * 60 * 1000)) ∧
    (isLocked now u = true →
      login now (some u) pw = (.accountLocked, some u)) ∧
    (∀ l, u.lockUntil = some l → l < now →
      incLoginAttempts now u =
        { u with lockUntil := none, loginAttempts := 1 }) ∧
    (isLocked now u = false → u.isActive = true →
      login now (some u) true =
        (.success, some (resetLoginAttempts now u))) := by
  refine ⟨?_, ?_, ?_, ?_, ?_⟩
  · intro hl ha
    have hnl : isLocked now u = false := by simp [isLocked, hl]
    constructor
    · simp [login, hnl, ha]
    · by_cases hc : MAX_ATTEMPTS ≤ u.loginAttempts + 1 <;>
        simp [incLoginAttempts, hl, isLocked, hc]
  · intro hl hcnt
    simp [incLoginAttempts, hl, isLocked, MAX_ATTEMPTS, LOCK_TIME, hcnt]
  · intro hlk
    simp [login, hlk]
  · intro l hl hlt
    simp [incLoginAttempts, hl, hlt]
  · intro hnl ha
    simp [login, hnl, ha]

/-- Witness for C4 at concrete inputs: the fifth failure locks for 2
hours; a login during the lock is rejected regardless of the password;
success resets. -/
theorem account_lockout_guard_spec_witness :
    (incLoginAttempts 1000 ⟨"u", "u@x.com", "holder", true, 4, none, none⟩).lockUntil =
      some (1000 + 2 * 60 * 60 * 1000) ∧
    login 1000 (some ⟨"u", "u@x.com", "holder", true, 5, some 7201000, none⟩) true =
      (.accountLocked, some ⟨"u", "u@x.com", "holder", true, 5, some 7201000, none⟩) ∧
    login 1000 (some ⟨"u", "u@x.com", "holder", true, 3, none, none⟩) true =
      (.success, some ⟨"u", "u@x.com", "holder", true, 0, none, some 1000⟩) :=
  ⟨(account_lockout_guard_spec 1000
      ⟨"u", "u@x.com", "holder", true, 4, none, none⟩ true).2.1 rfl (by decide),
   (account_lockout_guard_spec 1000
      ⟨"u", "u@x.com", "holder", true, 5, some 7201000, none⟩ true).2.2.1 (by decide),
   (account_lockout_guard_spec 1000
      ⟨"u", "u@x.com", "holder", true, 3, none, none⟩ true).2.2.2.2 (by decide) rfl⟩

/-- A token whose `type` claim is `access` but which is signed with the
refresh secret and a valid issuer — what `generateRefreshToken` would
never produce, but `verifyRefreshToken` must reject if it validated the
`type` discriminator. -/
def accessTypeToken : SignedToken :=
  { payload := { userId := "u1", email := "u1@example.com",
                 role := some "holder", tokenId := none, type := "access" }
    iss := "certificate-rbac-system", aud := none, exp := 1000
    secret := JWT_REFRESH_SECRET }

/-- C5 counterexample: `verifyRefreshToken` accepts a well-signed,
unexpired token whose `type` is `access`, so the verifier does not
validate the `type` discriminator and a wrong-type token does not fail
with `TOKEN_TYPE_INVALID` there. -/
theorem verifyRefreshToken_ignores_type_cex :
    verifyRefreshToken 0 accessTypeToken = .ok accessTypeToken.payload ∧
    accessTypeToken.payload.type = "access" := by
  constructor
  · rfl
  · rfl

/-- C5 amended: `verifyAccessToken` validates signature, expiry, issuer
and audience; `verifyRefreshToken` validates signature, expiry and issuer
(no audience, and neither verifier checks `type`). The `type`
discriminator is checked by the `authenticate` middleware after
verification, failing with `TOKEN_TYPE_INVALID`; the refresh endpoint
performs no `type` check, and an access token presented there fails as
`REFRESH_TOKEN_INVALID` because the signing secrets differ. -/
theorem token_verifiers_amended_spec (now : Nat) (t : SignedToken)
    (findUser : String → Option UserRec) :
    (verifyAccessToken now t = .ok t.payload ↔
      t.secret = JWT_SECRET ∧ now < t.exp ∧
      t.iss = "certificate-rbac-system" ∧
      t.aud = some "certificate-rbac-users") ∧
    (verifyRefreshToken now t = .ok t.payload ↔
      t.secret = JWT_REFRESH_SECRET ∧ now < t.exp ∧
      t.iss = "certificate-rbac-system") ∧
    (verifyAccessToken now t = .ok t.payload → t.payload.type ≠ "access" →
      authenticate now (some t) findUser = .tokenTypeInvalid) ∧
    (∀ t0 uid em role, refreshTokenOp now
      (some (generateAccessToken t0 uid em role)) findUser =
        .refreshTokenInvalid) := by
  refine ⟨?_, ?_, ?_, ?_⟩
  · simp only [verifyAccessToken, jwtVerify]
    split_ifs with h1 h2 h3 h4 <;> simp_all
  · simp only [verifyRefreshToken, jwtVerify]
    split_ifs with h1 h2 h3 <;> simp_all
  · intro hv ht
    simp [authenticate, hv, ht]
  · intro t0 uid em role
    have hsec : (generateAccessToken t0 uid em role).secret ≠ JWT_REFRESH_SECRET := by
      simp [generateAccessToken]
      decide
    simp [refreshTokenOp, verifyRefreshToken, jwtVerify, hsec]

/-- Witness for C5 amended: a freshly generated access token is accepted
by `verifyAccessToken`, and a freshly generated refresh token reaching
`authenticate` (same secrets configured would be needed to get past the
signature, so here a refresh-typed token signed with the access secret)
is rejected as `TOKEN_TYPE_INVALID`. -/
theorem token_verifiers_amended_spec_witness :
    verifyAccessToken 0 (generateAccessToken 0 "u1" "u1@example.com" "holder") =
      .ok (generateAccessToken 0 "u1" "u1@example.com" "holder").payload ∧
    authenticate 0
      (some { generateAccessToken 0 "u1" "u1@example.com" "holder" with
              payload := { userId := "u1", email := "u1@example.com",
                           role := none, tokenId := some "tid",
                           type := "refresh" } })
      (fun _ => none) = .tokenTypeInvalid := by
  constructor
  · exact (token_verifiers_amended_spec 0
      (generateAccessToken 0 "u1" "u1@example.com" "holder")
      (fun _ => none)).1.mpr (by refine ⟨rfl, by decide, rfl, rfl⟩)
  · exact (token_verifiers_amended_spec 0
      { generateAccessToken 0 "u1" "u1@example.com" "holder" with
        payload := { userId := "u1", email := "u1@example.com",
                     role := none, tokenId := some "tid", type := "refresh" } }
      (fun _ => none)).2.2.1 (by rfl) (by decide)

/-- C7: revoking a certificate that is not already revoked transitions it
to `revoked` and records `revokedAt`, `revokedBy` and the reason (with
the default text `No reason provided` when none is supplied); revoking an
already-revoked certificate fails with `ALREADY_REVOKED` before any
mutation, so no updated document can be produced. -/
theorem revoke_idempotency_guard (now : Nat) (callerId : String)
    (reason : Option String) (c : Certificate) :
    (c.status ≠ "revoked" →
      revokeCertificate now callerId reason (some c) =
        .ok { c with
          status := "revoked"
          revokedAt := some now
          revokedBy := some callerId
          revocationReason := some (reason.getD "No reason provided") }) ∧
    (c.status = "revoked" →
      revokeCertificate now callerId reason (some c) = .alreadyRevoked ∧
      ∀ c', revokeCertificate now callerId reason (some c) ≠ .ok c') := by
  constructor
  · intro h
    simp [revokeCertificate, h]
  · intro h
    refine ⟨by simp [revokeCertificate, h], ?_⟩
    intro c'
    simp [revokeCertificate, h]

/-- C9: a failing audit-store write is swallowed inside
`AuditLog.log` (the recorder returns nothing instead of throwing), and
the outcome of the primary operation that triggered the entry — here the
revocation — is identical for every audit store, failing or not. -/
theorem audit_failure_never_propagates
    (storeWrite storeWrite' : AuditEvent → Except String AuditEvent)
    (now : Nat) (callerId : String) (reason : Option String)
    (found : Option Certificate) (e : AuditEvent) (msg : String) :
    (storeWrite e = .error msg → auditLog storeWrite e = none) ∧
    (revokeCertificateOp now callerId reason found storeWrite =
      revokeCertificateOp now callerId reason found storeWrite') ∧
    (revokeCertificateOp now callerId reason found storeWrite =
      revokeCertificate now callerId reason found) := by
  refine ⟨?_, ?_, ?_⟩
  · intro h
    simp [auditLog, h]
  · cases h : revokeCertificate now callerId reason found <;>
      simp [revokeCertificateOp, h]
  · cases h : revokeCertificate now callerId reason found <;>
      simp [revokeCertificateOp, h]

/-- The pre-save hook touches only the identifier fields,
`verificationUrl` and `checksum`: the content fields, status, signature
and history are untouched, so the checksum inputs are stable across a
save. -/
theorem preSave_preserves_content (sha : ChecksumInput → String) (y : Nat)
    (a b t u : String) (c : Certificate) :
    (preSave sha y a b t u c).status = c.status ∧
    (preSave sha y a b t u c).digitalSignature = c.digitalSignature ∧
    (preSave sha y a b t u c).expiresAt = c.expiresAt ∧
    (preSave sha y a b t u c).verificationHistory = c.verificationHistory ∧
    checksumInput (preSave sha y a b t u c) = checksumInput c := by
  unfold preSave
  cases hc : c.certificateId <;> cases hs : c.serialNumber <;>
    cases ht : c.verificationToken <;> simp [checksumInput, hc, hs, ht]

/-- The checksum written by every save is the hash of the canonical field
subset of the incoming document. -/
theorem preSave_checksum (sha : ChecksumInput → String) (y : Nat)
    (a b t u : String) (c : Certificate) :
    (preSave sha y a b t u c).checksum = some (sha (checksumInput c)) := by
  unfold preSave
  cases hc : c.certificateId <;> cases hs : c.serialNumber <;>
    cases ht : c.verificationToken <;> simp [checksumInput, hc, hs, ht]

/-- A certificate as it stands after a first save (all identifiers
assigned) whose stored checksum is a stale string, exhibiting that the
pre-save hook rewrites the checksum field on a later save. -/
def savedCert : Certificate :=
  { certificateId := some "CERT-2024-AABBCCDD"
    serialNumber := some "0011223344556677"
    verificationToken := some "deadbeef"
    verificationUrl := some "http://localhost:3000/verify/deadbeef"
    checksum := some "stale"
    title := "Degree", type := "academic", status := "active"
    holder := "h1", holderName := "Holder One"
    issuingOrganization := "Org", issuedAt := 0, expiresAt := none
    revokedAt := none, revokedBy := none, revocationReason := none
    digitalSignature := none, verificationHistory := [] }

/-- C2 counterexample: the pre-save hook recomputes `checksum` on a later
save — here a certificate with every identifier and a checksum already
assigned gets its checksum overwritten by the hook, so the checksum is
not "assigned exactly once and never recomputed" (the `if (!this...)`
guards protect only the three identifiers). -/
theorem checksum_recomputed_on_later_save_cex :
    savedCert.checksum.isSome = true ∧
    (preSave (fun _ => "d4e5") 2024 "AA" "BB" "CC"
      "http://localhost:3000" savedCert).checksum ≠ savedCert.checksum := by
  constructor
  · rfl
  · decide

/-- C2 amended: `certificateId`, `serialNumber` and `verificationToken`
are assigned exactly once — a save of a document that already carries
them leaves them unchanged — while `checksum` is recomputed on every save
as a deterministic function of the canonical field subset, so saving or
re-fetching the same unchanged certificate always yields the identical
checksum (a second save does not change it). -/
theorem identifiers_once_checksum_deterministic
    (sha : ChecksumInput → String) (y y' : Nat)
    (a b t u a' b' t' u' : String) (c : Certificate) :
    (c.certificateId.isSome = true →
      (preSave sha y a b t u c).certificateId = c.certificateId) ∧
    (c.serialNumber.isSome = true →
      (preSave sha y a b t u c).serialNumber = c.serialNumber) ∧
    (c.verificationToken.isSome = true →
      (preSave sha y a b t u c).verificationToken = c.verificationToken) ∧
    ((preSave sha y a b t u c).checksum = some (sha (checksumInput c))) ∧
    ((preSave sha y a b t u (preSave sha y' a' b' t' u' c)).checksum =
      (preSave sha y' a' b' t' u' c).checksum) := by
  refine ⟨?_, ?_, ?_, preSave_checksum sha y a b t u c, ?_⟩
  · intro h
    unfold preSave
    cases hc : c.certificateId <;> cases hs : c.serialNumber <;>
      cases ht : c.verificationToken <;> simp_all
  · intro h
    unfold preSave
    cases hc : c.certificateId <;> cases hs : c.serialNumber <;>
      cases ht : c.verificationToken <;> simp_all
  · intro h
    unfold preSave
    cases hc : c.certificateId <;> cases hs : c.serialNumber <;>
      cases ht : c.verificationToken <;> simp_all
  · rw [preSave_checksum, preSave_checksum,
      (preSave_preserves_content sha y' a' b' t' u' c).2.2.2.2]

/-- Witness for C2 amended: a second save of an already-saved certificate
keeps identifiers and checksum identical. -/
theorem identifiers_once_checksum_deterministic_witness :
    (preSave (fun i => i.title) 2025 "EE" "FF" "GG" "http://x" savedCert).certificateId
      = savedCert.certificateId ∧
    (preSave (fun i => i.title) 2025 "EE" "FF" "GG" "http://x"
        (preSave (fun i => i.title) 2024 "AA" "BB" "CC" "http://x" savedCert)).checksum
      = (preSave (fun i => i.title) 2024 "AA" "BB" "CC" "http://x" savedCert).checksum :=
  ⟨(identifiers_once_checksum_deterministic (fun i => i.title) 2025 2024
      "EE" "FF" "GG" "http://x" "AA" "BB" "CC" "http://x" savedCert).1 rfl,
   (identifiers_once_checksum_deterministic (fun i => i.title) 2025 2024
      "EE" "FF" "GG" "http://x" "AA" "BB" "CC" "http://x" savedCert).2.2.2.2⟩

/-- C1: the result evaluation of the public verify operation follows the
strict precedence `revoked` → `suspended` → expiry → other non-`active`
status → signature validity, and at the endpoint a certificate that is
both revoked and past `expiresAt` reports `revoked` — never `expired`. -/
theorem verify_precedence_revoked_wins (now : Nat)
    (hmac : String → String → String) (secret : String) (c : Certificate)
    (requesterId : Option String) (ip ua : String) :
    (c.status = "revoked" →
      computeVerificationResult now hmac secret c = "revoked") ∧
    (c.status = "suspended" →
      computeVerificationResult now hmac secret c = "suspended") ∧
    (c.status ≠ "revoked" → c.status ≠ "suspended" → isExpired now c = true →
      computeVerificationResult now hmac secret c = "expired") ∧
    (c.status ≠ "revoked" → c.status ≠ "suspended" → c.status ≠ "active" →
      isExpired now c = false →
      computeVerificationResult now hmac secret c = "invalid") ∧
    (c.status = "active" → isExpired now c = false →
      computeVerificationResult now hmac secret c =
        (if c.digitalSignature.isSome = true ∧
            verifySignature hmac secret c = false
         then "invalid" else "valid")) ∧
    (c.status = "revoked" → certValidate c = true →
      (verifyCertificate now hmac secret (some c) requesterId ip ua).1.result
        = "revoked") ∧
    (c.status = "revoked" →
      (verifyCertificate now hmac secret (some c) requesterId ip ua).1.result
        ≠ "expired") := by
  refine ⟨?_, ?_, ?_, ?_, ?_, ?_, ?_⟩
  · intro h
    simp [computeVerificationResult, h]
  · intro h
    simp [computeVerificationResult, h]
  · intro h1 h2 h3
    simp [computeVerificationResult, h1, h2, h3]
  · intro h1 h2 h3 h4
    simp [computeVerificationResult, h1, h2, h3, h4]
  · intro h1 h2
    cases hds : c.digitalSignature <;>
      cases hvs : verifySignature hmac secret c <;>
      simp [computeVerificationResult, h1, h2, hds, hvs]
  · intro h hval
    have hr : computeVerificationResult now hmac secret c = "revoked" := by
      simp [computeVerificationResult, h]
    have hv' : certValidate { c with verificationHistory :=
        c.verificationHistory ++ [⟨requesterId, now, ip, ua, "revoked"⟩] } = true := by
      simp only [certValidate, Bool.and_eq_true] at hval ⊢
      refine ⟨hval.1, ?_⟩
      rw [List.all_append, hval.2]
      simp [historyResultEnum]
    simp [verifyCertificate, hr, saveCertificate, hv']
  · intro h
    have hr : computeVerificationResult now hmac secret c = "revoked" := by
      simp [computeVerificationResult, h]
    cases hsv : saveCertificate { c with verificationHistory :=
        c.verificationHistory ++ [⟨requesterId, now, ip, ua, "revoked"⟩] } <;>
      simp [verifyCertificate, hr, hsv]

/-- An already-revoked certificate whose `expiresAt` is in the past. -/
def revokedExpiredCert : Certificate :=
  { savedCert with
    status := "revoked"
    expiresAt := some 10
    revokedAt := some 5
    revokedBy := some "a1"
    revocationReason := some "policy violation" }

/-- Witness for C1 at a concrete revoked-and-expired certificate: the
endpoint reports `revoked`. -/
theorem verify_precedence_revoked_wins_witness :
    isExpired 1000 revokedExpiredCert = true ∧
    (verifyCertificate 1000 (fun _ m => m) "s" (some revokedExpiredCert)
      none "1.2.3.4" "agent").1.result = "revoked" :=
  ⟨by decide,
   (verify_precedence_revoked_wins 1000 (fun _ m => m) "s" revokedExpiredCert
      none "1.2.3.4" "agent").2.2.2.2.2.1 rfl (by decide)⟩

/-- C8: every creation starts the document at status `pending`; the
created certificate is auto-advanced to `active` — with its HMAC digital
signature computed — exactly when the creating caller's role holds
`certificate:sign`; consequently the stored signature is present iff the
stored status is `active`. -/
theorem create_auto_sign_iff_sign_permission
    (sha : ChecksumInput → String) (hmac : String → String → String)
    (secret callerRole : String) (y : Nat) (a b t u : String)
    (inp : CreateCertInput) :
    ((newCertificate inp).status = "pending") ∧
    (hasPermission callerRole "certificate:sign" = true →
      (createCertificate sha hmac secret callerRole y a b t u inp).status
          = "active" ∧
      (createCertificate sha hmac secret callerRole y a b t u inp).digitalSignature
          = some (signCertificate hmac secret
              (preSave sha y a b t u (newCertificate inp)))) ∧
    (hasPermission callerRole "certificate:sign" = false →
      (createCertificate sha hmac secret callerRole y a b t u inp).status
          = "pending" ∧
      (createCertificate sha hmac secret callerRole y a b t u inp).digitalSignature
          = none) ∧
    ((createCertificate sha hmac secret callerRole y a b t u inp).digitalSignature.isSome
        = true ↔
      (createCertificate sha hmac secret callerRole y a b t u inp).status
        = "active") := by
  have hbase := preSave_preserves_content sha y a b t u (newCertificate inp)
  refine ⟨rfl, ?_, ?_, ?_⟩
  · intro hp
    have h2 := preSave_preserves_content sha y a b t u
      { preSave sha y a b t u (newCertificate inp) with
        digitalSignature := some (signCertificate hmac secret
          (preSave sha y a b t u (newCertificate inp)))
        status := "active" }
    simp only [createCertificate, hp, if_true]
    exact ⟨h2.1, h2.2.1⟩
  · intro hp
    simp only [createCertificate, hp, Bool.false_eq_true, if_false]
    refine ⟨?_, ?_⟩
    · exact hbase.1
    · exact hbase.2.1
  · by_cases hp : hasPermission callerRole "certificate:sign"
    · have h2 := preSave_preserves_content sha y a b t u
        { preSave sha y a b t u (newCertificate inp) with
          digitalSignature := some (signCertificate hmac secret
            (preSave sha y a b t u (newCertificate inp)))
          status := "active" }
      simp only [createCertificate, hp, if_true]
      simp [h2.1, h2.2.1]
    · have hp' : hasPermission callerRole "certificate:sign" = false := by
        simpa using hp
      simp only [createCertificate, hp', Bool.false_eq_true, if_false]
      simp [hbase.1, hbase.2.1]
      simp [newCertificate]

/-- The creation payload used by the concrete witnesses. -/
def sampleInput : CreateCertInput :=
  { title := "Degree", type := "academic", holder := "h1"
    holderName := "Holder One", issuingOrganization := "Org"
    issuedAt := 0, expiresAt := none }

/-- Witness for C8: an `issuer` (holding `certificate:sign`) gets an
`active`, signed certificate; a `verifier` (no sign permission) leaves it
`pending` and unsigned. -/
theorem create_auto_sign_iff_sign_permission_witness :
    (createCertificate (fun i => i.title) (fun _ m => m) "s" "issuer"
        2024 "AA" "BB" "CC" "http://x" sampleInput).status = "active" ∧
    (createCertificate (fun i => i.title) (fun _ m => m) "s" "verifier"
        2024 "AA" "BB" "CC" "http://x" sampleInput).status = "pending" ∧
    (createCertificate (fun i => i.title) (fun _ m => m) "s" "verifier"
        2024 "AA" "BB" "CC" "http://x" sampleInput).digitalSignature = none :=
  ⟨((create_auto_sign_iff_sign_permission (fun i => i.title) (fun _ m => m)
      "s" "issuer" 2024 "AA" "BB" "CC" "http://x" sampleInput).2.1
      (by decide)).1,
   ((create_auto_sign_iff_sign_permission (fun i => i.title) (fun _ m => m)
      "s" "verifier" 2024 "AA" "BB" "CC" "http://x" sampleInput).2.2.1
      (by decide)).1,
   ((create_auto_sign_iff_sign_permission (fun i => i.title) (fun _ m => m)
      "s" "verifier" 2024 "AA" "BB" "CC" "http://x" sampleInput).2.2.1
      (by decide)).2⟩

/-- C10: the schema restricts `verificationHistory[].result` to
`valid`/`invalid`/`expired`/`revoked` — `suspended` is not admitted — so
the public verification of a suspended certificate cannot persist its
history entry: the save fails validation and the endpoint's catch branch
responds 500 with result `error` instead of reporting `suspended`. -/
theorem suspended_history_entry_rejected (now : Nat)
    (hmac : String → String → String) (secret : String) (c : Certificate)
    (requesterId : Option String) (ip ua : String)
    (h : c.status = "suspended") :
    historyResultEnum = ["valid", "invalid", "expired", "revoked"] ∧
    "suspended" ∉ historyResultEnum ∧
    verifyCertificate now hmac secret (some c) requesterId ip ua =
      (⟨500, false, "error"⟩, some c) := by
  refine ⟨rfl, by decide, ?_⟩
  have hr : computeVerificationResult now hmac secret c = "suspended" := by
    simp [computeVerificationResult, h]
  have hv : certValidate { c with verificationHistory :=
      c.verificationHistory ++ [⟨requesterId, now, ip, ua, "suspended"⟩] } = false := by
    simp [certValidate, List.all_append, historyResultEnum]
  simp [verifyCertificate, hr, saveCertificate, hv]

/-- A suspended certificate used by the concrete C10 witness. -/
def suspendedCert : Certificate :=
  { savedCert with status := "suspended" }

/-- Witness for C10: verifying a concrete suspended certificate responds
500/`error` and leaves the stored document unchanged. -/
theorem suspended_history_entry_rejected_witness :
    verifyCertificate 1000 (fun _ m => m) "s" (some suspendedCert)
        none "1.2.3.4" "agent" =
      (⟨500, false, "error"⟩, some suspendedCert) :=
  (suspended_history_entry_rejected 1000 (fun _ m => m) "s" suspendedCert
    none "1.2.3.4" "agent" rfl).2.2

/-- Witness for C7: revoking an active certificate records the default
reason; revoking it again is rejected. -/
theorem revoke_idempotency_guard_witness :
    revokeCertificate 1000 "a1" none (some savedCert) =
      .ok { savedCert with
        status := "revoked"
        revokedAt := some 1000
        revokedBy := some "a1"
        revocationReason := some "No reason provided" } ∧
    revokeCertificate 1000 "a1" none (some revokedExpiredCert) =
      .alreadyRevoked :=
  ⟨(revoke_idempotency_guard 1000 "a1" none savedCert).1 (by decide),
   ((revoke_idempotency_guard 1000 "a1" none revokedExpiredCert).2 rfl).1⟩

/-- Witness for C9: with a store whose every write fails, the recorder
returns nothing and the revocation's outcome is the same as the pure
controller result. -/
theorem audit_failure_never_propagates_witness :
    auditLog (fun _ => .error "store down")
      { action := "certificate.revoke", severity := "critical", success := true }
      = none ∧
    revokeCertificateOp 1000 "a1" none (some savedCert)
        (fun _ => .error "store down") =
      revokeCertificate 1000 "a1" none (some savedCert) :=
  ⟨(audit_failure_never_propagates (fun _ => .error "store down")
      (fun e => .ok e) 1000 "a1" none (some savedCert)
      { action := "certificate.revoke", severity := "critical", success := true }
      "store down").1 rfl,
   (audit_failure_never_propagates (fun _ => .error "store down")
      (fun e => .ok e) 1000 "a1" none (some savedCert)
      { action := "certificate.revoke", severity := "critical", success := true }
      "store down").2.2⟩

end CertSys
